import Mathlib

/-!
Shallow embedding of the mattermost-translate plugin server
(src/server/plugin.go) in Lean 4.

The Go server consists of: a per-user translation preference record
(`UserInfo`) with validation (`IsValid`), a key-value preference store
(`getUserInfo` / `setUserInfo` over the platform KV API, with a websocket
change notification), the pre-publish interception hook
(`MessageWillBePosted`), the HTTP front end (`ServeHTTP` dispatching to
`getGo`, `getInfo`, `setInfo`), and remote capabilities (AWS Comprehend
language detection, AWS Translate).

Remote capabilities and the platform API are external collaborators: they
are modelled as an explicit environment (`Env`) of oracles, and each
operation additionally returns the list of remote-capability calls it
performed (`CapCall`), so that "capability X is never invoked" claims are
statable.  KV bytes are abstracted to `KVValue`: `goodBytes u` stands for
a byte string that `json.Unmarshal` decodes to `u` (for this flat record
of strings and a bool, `json.Marshal` never fails and
`Unmarshal (Marshal u) = u`), `badBytes` for bytes that fail to decode.
-/

deriving instance DecidableEq for Except

namespace MMTranslate

/-- Modelled from the spec: the Language Catalog (the `languageCodes`
map of the repository lives in a file that is not under src/; the spec
describes it as a static mapping of language code → display name that
validates supported codes, with `auto` the accepted sentinel for the
source language and the scenario naming en → English, fr → French). -/
def languageCatalog : List (String × String) :=
  [("auto", "Automatic"),
   ("en", "English"),
   ("fr", "French"),
   ("es", "Spanish"),
   ("de", "German"),
   ("ja", "Japanese"),
   ("ko", "Korean"),
   ("zh", "Chinese Simplified")]

/-- Go `languageCodes[c]` as an option (`some name` iff the code is a key
of the map). -/
def lookupLang (c : String) : Option String :=
  (languageCatalog.find? (fun p => p.1 = c)).map (fun p => p.2)

/-- Go `languageCodes[c]`: a map read returns the zero value `""` for a
missing key. -/
def langValue (c : String) : String :=
  (lookupLang c).getD ""

/-- Modelled from the spec: the `autoLanguage` constant (defined outside
src/); the sentinel source language meaning "detect at runtime". -/
def autoLanguage : String := "auto"

/-- Modelled from the spec: the `enLanguage` constant (defined outside
src/); the default target language of a new preference. -/
def enLanguage : String := "en"

/-- `UserInfo` (plugin.go): per-user translation preference. -/
structure UserInfo where
  UserID : String
  Activated : Bool
  SourceLanguage : String
  TargetLanguage : String
deriving DecidableEq, Repr

/-- `NewUserInfo` (plugin.go): default preference for a user. -/
def NewUserInfo (userID : String) : UserInfo :=
  { UserID := userID
    Activated := true
    SourceLanguage := autoLanguage
    TargetLanguage := enLanguage }

/-- `UserInfo.IsValid` (plugin.go lines 64-94).  Go returns `error`
(nil on success); modelled as `Option String` carrying the message.
`len(u.UserID)` is the byte length of the string. -/
def UserInfo.IsValid (u : UserInfo) : Option String :=
  if u.UserID = "" ∨ u.UserID.utf8ByteSize ≠ 26 then
    some "Invalid: user_id field"
  else if u.SourceLanguage = "" then
    some "Invalid: source_language field"
  else if u.TargetLanguage = "" then
    some "Invalid: target_language field"
  else if langValue u.SourceLanguage = "" then
    some "Invalid: source_language must be in a supported language code"
  else if langValue u.TargetLanguage = "" then
    some "Invalid: target_language must be in a supported language code"
  else if u.SourceLanguage = u.TargetLanguage then
    some "Invalid: source_language and target_language are equal"
  else if u.TargetLanguage = autoLanguage then
    some "Invalid: target_language must not be auto"
  else
    none

/-- `APIErrorResponse` (plugin.go). -/
structure APIErrorResponse where
  ID : String
  Message : String
  StatusCode : Nat
deriving DecidableEq, Repr

/-- Abstraction of a KV byte string: `goodBytes u` is a byte string that
`json.Unmarshal` decodes to `u`; `badBytes` is one that fails to decode. -/
inductive KVValue where
  | goodBytes (u : UserInfo)
  | badBytes
deriving DecidableEq, Repr

/-- Result of `p.API.KVGet`: a read error, a nil byte slice (no record),
or stored bytes. -/
inductive KVGetResult where
  | kvError
  | kvNil
  | kvBytes (v : KVValue)
deriving DecidableEq, Repr

/-- The KV store visible through `p.API.KVGet`. -/
def KVStore := String → KVGetResult

/-- Payload of the `info_change` websocket event published by
`emitUserInfoChange` (plugin.go lines 136-147). -/
structure WSEvent where
  event : String
  userID : String
  activated : Bool
  sourceLanguage : String
  targetLanguage : String
  broadcastUserID : String
deriving DecidableEq, Repr

/-- `emitUserInfoChange` (plugin.go): the event it publishes. -/
def emitUserInfoChange (userInfo : UserInfo) : WSEvent :=
  { event := "info_change"
    userID := userInfo.UserID
    activated := userInfo.Activated
    sourceLanguage := userInfo.SourceLanguage
    targetLanguage := userInfo.TargetLanguage
    broadcastUserID := userInfo.UserID }

/-- Plugin-side mutable state touched by the preference store: the KV
store and the list of websocket events published so far. -/
structure PluginState where
  kv : KVStore
  events : List WSEvent

/-- `getUserInfo` (plugin.go lines 96-106): KVGet error or nil bytes →
`no_record_found`; bytes that fail to unmarshal → `unable_to_unmarshal`;
otherwise the decoded record. -/
def getUserInfo (kv : KVStore) (userID : String) :
    Except APIErrorResponse UserInfo :=
  match kv userID with
  | .kvError =>
      .error { ID := "no_record_found", Message := "No record found.",
               StatusCode := 400 }
  | .kvNil =>
      .error { ID := "no_record_found", Message := "No record found.",
               StatusCode := 400 }
  | .kvBytes .badBytes =>
      .error { ID := "unable_to_unmarshal", Message := "Unable to unmarshal json.",
               StatusCode := 400 }
  | .kvBytes (.goodBytes u) => .ok u

/-- `setUserInfo` (plugin.go lines 108-125).  Go returns a possibly-nil
`*APIErrorResponse` and mutates the store; modelled as a pair of the
optional error and the state after the call.  `kvSetFails` models the
outcome of `p.API.KVSet` (an external collaborator).  `json.Marshal` of
this flat record cannot fail, so that branch is unreachable and the
stored bytes decode back to the same record. -/
def setUserInfo (kvSetFails : Bool) (st : PluginState) (userInfo : UserInfo) :
    Option APIErrorResponse × PluginState :=
  match userInfo.IsValid with
  | some msg =>
      (some { ID := "invalid_user_info", Message := msg, StatusCode := 400 }, st)
  | none =>
      if kvSetFails then
        (some { ID := "unable_to_save", Message := "Unable to save user info.",
                StatusCode := 400 }, st)
      else
        (none,
         { kv := fun k =>
             if k = userInfo.UserID then .kvBytes (.goodBytes userInfo)
             else st.kv k
           events := st.events ++ [emitUserInfoChange userInfo] })

/-- A Mattermost post, restricted to the fields the plugin reads
(`post.UserId`, `post.Message`, `post.UpdateAt`). -/
structure Post where
  UserId : String
  Message : String
  UpdateAt : Int
deriving DecidableEq, Repr

/-- A remote-capability invocation performed during a call: AWS Comprehend
language detection (`detectLanguage`) or AWS Translate (`translateText`). -/
inductive CapCall where
  | detectCall (text : String)
  | translateCall (text source target : String)
deriving DecidableEq, Repr

/-- External collaborators: the outcomes of the remote detection and
translation capabilities and of the platform `GetPost` API.  An `error`
outcome stands for any of the failure paths inside `detectLanguage` /
`translateText` (bad credentials, remote error, zero detection
candidates). -/
structure Env where
  detect : String → Except Unit String
  translate : String → String → String → Except Unit String
  getPost : String → Except Unit Post

/-- Display name used in the annotation header (plugin.go lines 184-192):
the catalog name of the code, falling back to the raw code when the code
is not a key of the map. -/
def displayName (c : String) : String :=
  match lookupLang c with
  | some name => name
  | none => c

/-- The tail of `MessageWillBePosted` from the source-equals-target check
on (plugin.go lines 168-197), after the effective source language has
been resolved; `calls` are the capability calls made so far. -/
def hookDispatch (env : Env) (post : Post) (sourceLang targetLang : String)
    (calls : List CapCall) : Post × String × List CapCall :=
  if sourceLang = targetLang then
    (post, "", calls)
  else
    match env.translate post.Message sourceLang targetLang with
    | .error _ =>
        (post, "Failed to translate message",
         calls ++ [.translateCall post.Message sourceLang targetLang])
    | .ok translatedText =>
        if translatedText = post.Message then
          (post, "", calls ++ [.translateCall post.Message sourceLang targetLang])
        else
          ({ post with
             Message := post.Message ++ "\n\n(Translated: "
               ++ displayName sourceLang ++ " → " ++ displayName targetLang
               ++ ")\n" ++ translatedText },
           "",
           calls ++ [.translateCall post.Message sourceLang targetLang])

/-- `MessageWillBePosted` (plugin.go lines 149-198): the pre-publish hook.
Returns the (possibly modified) post, the rejection-reason string, and
the remote-capability calls performed. -/
def MessageWillBePosted (env : Env) (kv : KVStore) (post : Post) :
    Post × String × List CapCall :=
  match getUserInfo kv post.UserId with
  | .error _ => (post, "", [])
  | .ok userInfo =>
      if !userInfo.Activated then
        (post, "", [])
      else
        let sourceLang := userInfo.SourceLanguage
        let targetLang := userInfo.TargetLanguage
        if sourceLang = autoLanguage then
          match env.detect post.Message with
          | .error _ =>
              (post, "Failed to detect language", [.detectCall post.Message])
          | .ok detectedLang =>
              hookDispatch env post detectedLang targetLang
                [.detectCall post.Message]
        else
          hookDispatch env post sourceLang targetLang []

/-- `TranslatedMessage` (plugin.go lines 35-43). -/
structure TranslatedMessage where
  ID : String
  PostID : String
  SourceLanguage : String
  SourceText : String
  TargetLanguage : String
  TranslatedText : String
  UpdateAt : Int
deriving DecidableEq, Repr

/-- An HTTP request, restricted to what the handlers read: the URL path,
the `Mattermost-User-ID` header (`""` when absent), the `post_id`,
`source` and `target` query parameters, and the decoded JSON body for
`setInfo` (`none` when decoding leaves the pointer nil). -/
structure HTTPRequest where
  path : String
  mmUserID : String
  queryPostID : String
  querySource : String
  queryTarget : String
  body : Option UserInfo
deriving Repr

/-- An observable write to the HTTP response, in order. -/
inductive HTTPAction where
  | httpError (message : String) (code : Nat)
  | setContentType
  | notFound
  | writeUserInfo (u : UserInfo)
  | writeTranslated (t : TranslatedMessage)
deriving DecidableEq, Repr

/-- The tail of `getGo` from the translation call on (plugin.go lines
324-341), after the source language has been resolved. -/
def getGoDispatch (env : Env) (r : HTTPRequest) (post : Post) (source : String)
    (calls : List CapCall) : List HTTPAction × List CapCall :=
  match env.translate post.Message source r.queryTarget with
  | .error _ =>
      ([.httpError "Translation failed" 400],
       calls ++ [.translateCall post.Message source r.queryTarget])
  | .ok translatedText =>
      ([.writeTranslated
          { ID := r.queryPostID ++ source ++ r.queryTarget ++ toString post.UpdateAt
            PostID := r.queryPostID
            SourceLanguage := source
            SourceText := post.Message
            TargetLanguage := r.queryTarget
            TranslatedText := translatedText
            UpdateAt := post.UpdateAt }],
       calls ++ [.translateCall post.Message source r.queryTarget])

/-- `getGo` (plugin.go lines 297-342): the on-demand translation handler. -/
def getGo (env : Env) (r : HTTPRequest) : List HTTPAction × List CapCall :=
  if r.mmUserID = "" then
    ([.httpError "Not authorized to translate post" 401], [])
  else
    match env.getPost r.queryPostID with
    | .error _ => ([.httpError "No post to translate" 400], [])
    | .ok post =>
        if r.querySource = "auto" then
          match env.detect post.Message with
          | .error _ =>
              ([.httpError "Language detection failed" 400],
               [.detectCall post.Message])
          | .ok detected =>
              getGoDispatch env r post detected [.detectCall post.Message]
        else
          getGoDispatch env r post r.querySource []

/-- `getInfo` (plugin.go lines 344-359): silently empty on missing caller
identity or store error. -/
def getInfo (kv : KVStore) (r : HTTPRequest) : List HTTPAction :=
  if r.mmUserID = "" then
    []
  else
    match getUserInfo kv r.mmUserID with
    | .error _ => []
    | .ok info => [.writeUserInfo info]

/-- `setInfo` (plugin.go lines 361-393). -/
def setInfo (kvSetFails : Bool) (st : PluginState) (r : HTTPRequest) :
    List HTTPAction × PluginState :=
  if r.mmUserID = "" then
    ([.httpError "Not authorized to set info" 401], st)
  else
    match r.body with
    | none => ([.httpError "Invalid parameter: info" 400], st)
    | some info =>
        match info.IsValid with
        | some msg =>
            ([.httpError ("Invalid info: " ++ msg) 400], st)
        | none =>
            if info.UserID ≠ r.mmUserID then
              ([.httpError "Invalid parameter: user mismatch" 400], st)
            else
              match setUserInfo kvSetFails st info with
              | (some _, st2) => ([.httpError "Failed to set info" 400], st2)
              | (none, st2) => ([.writeUserInfo info], st2)

/-- `ServeHTTP` (plugin.go lines 253-270).  `configValid` — modelled from
the spec: the receiver method `p.IsValid()` (defined outside src/) checks
that the plugin is configured with valid remote-capability
credentials/region.  The source writes `501 Not Implemented` when that
check fails but does NOT return, so it falls through to the content-type
header and the path switch. -/
def ServeHTTP (configValid : Bool) (kvSetFails : Bool) (env : Env)
    (st : PluginState) (r : HTTPRequest) :
    List HTTPAction × List CapCall × PluginState :=
  let guardActions : List HTTPAction :=
    if configValid then []
    else [.httpError "This plugin is not configured." 501]
  let routed : List HTTPAction × List CapCall × PluginState :=
    if r.path = "/api/go" then
      let res := getGo env r
      (res.1, res.2, st)
    else if r.path = "/api/get_info" then
      (getInfo st.kv r, [], st)
    else if r.path = "/api/set_info" then
      let res := setInfo kvSetFails st r
      (res.1, [], res.2)
    else
      ([.notFound], [], st)
  (guardActions ++ [.setContentType] ++ routed.1, routed.2.1, routed.2.2)

/-! Concrete fixtures used to evaluate the model on closed inputs. -/

/-- A 26-character (26-byte) user id. -/
def uid26 : String := "abcdefghijklmnopqrstuvwxyz"

/-- Preference en → fr, activated. -/
def prefEnFr : UserInfo :=
  { UserID := uid26, Activated := true
    SourceLanguage := "en", TargetLanguage := "fr" }

/-- The default preference for `uid26`. -/
def prefAutoEn : UserInfo := NewUserInfo uid26

/-- Preference auto → fr, activated. -/
def prefAutoFr : UserInfo :=
  { UserID := uid26, Activated := true
    SourceLanguage := "auto", TargetLanguage := "fr" }

/-- Preference en → fr stored but deactivated. -/
def prefEnFrOff : UserInfo :=
  { UserID := uid26, Activated := false
    SourceLanguage := "en", TargetLanguage := "fr" }

/-- A KV store holding exactly one user record. -/
def kvSingle (u : UserInfo) : KVStore :=
  fun k => if k = u.UserID then .kvBytes (.goodBytes u) else .kvNil

/-- The empty KV store. -/
def kvEmpty : KVStore := fun _ => .kvNil

/-- Empty plugin state. -/
def stEmpty : PluginState := { kv := kvEmpty, events := [] }

/-- Plugin state holding the en → fr preference of `uid26`. -/
def stWithPref : PluginState := { kv := kvSingle prefEnFr, events := [] }

/-- An environment in which every remote call fails. -/
def envFail : Env :=
  { detect := fun _ => .error ()
    translate := fun _ _ _ => .error ()
    getPost := fun _ => .error () }

/-- The spec scenario environment: translating "Hello" from en to fr
yields "Bonjour". -/
def envHello : Env :=
  { detect := fun _ => .error ()
    translate := fun text s t =>
      if text = "Hello" ∧ s = "en" ∧ t = "fr" then .ok "Bonjour" else .error ()
    getPost := fun _ => .error () }

/-- The spec scenario post. -/
def postHello : Post := { UserId := uid26, Message := "Hello", UpdateAt := 0 }

/-- A post with message "Hola". -/
def postHola : Post := { UserId := uid26, Message := "Hola", UpdateAt := 5 }

/-- Environment for the on-demand handler: post "p1" exists and every
translation succeeds (appending "!"), so the remote translation call is
observable even for equal source and target. -/
def envEcho : Env :=
  { detect := fun _ => .error ()
    translate := fun text _ _ => .ok (text ++ "!")
    getPost := fun pid => if pid = "p1" then .ok postHola else .error () }

/-- An on-demand request for post "p1" with source = target = "en". -/
def rGoEnEn : HTTPRequest :=
  { path := "/api/go", mmUserID := uid26
    queryPostID := "p1", querySource := "en", queryTarget := "en", body := none }

/-- A get_info request from `uid26`. -/
def rGetInfo : HTTPRequest :=
  { path := "/api/get_info", mmUserID := uid26
    queryPostID := "", querySource := "", queryTarget := "", body := none }

/-- An on-demand request for post "p1" with source "en", target "fr". -/
def rGoEnFr : HTTPRequest :=
  { path := "/api/go", mmUserID := uid26
    queryPostID := "p1", querySource := "en", queryTarget := "fr", body := none }

/-- An invalid preference: source equals target. -/
def uEnEn : UserInfo :=
  { UserID := uid26, Activated := true
    SourceLanguage := "en", TargetLanguage := "en" }

/-! Helper lemmas about the dispatch tail of the hook. -/

/-- The dispatch tail only ever produces the empty rejection reason or
the translation-failure reason, and whenever the reason is non-empty the
post is returned unmodified. -/
lemma hookDispatch_reason_cases (env : Env) (post : Post) (s t : String)
    (calls : List CapCall) :
    ((hookDispatch env post s t calls).2.1 = "" ∨
      (hookDispatch env post s t calls).2.1 = "Failed to translate message") ∧
    ((hookDispatch env post s t calls).2.1 ≠ "" →
      (hookDispatch env post s t calls).1 = post) := by
  unfold hookDispatch
  by_cases hst : s = t
  · rw [if_pos hst]
    exact ⟨Or.inl rfl, fun h => absurd rfl h⟩
  · rw [if_neg hst]
    cases htr : env.translate post.Message s t with
    | error e =>
        exact ⟨Or.inr rfl, fun _ => rfl⟩
    | ok tt =>
        by_cases hne : tt = post.Message
        · simp [hne]
        · simp [hne]

/-- The dispatch tail either performs no further capability call or
exactly one translation call on the resolved pair. -/
lemma hookDispatch_calls_cases (env : Env) (post : Post) (s t : String)
    (calls : List CapCall) :
    (hookDispatch env post s t calls).2.2 = calls ∨
    (hookDispatch env post s t calls).2.2 =
      calls ++ [CapCall.translateCall post.Message s t] := by
  unfold hookDispatch
  by_cases hst : s = t
  · rw [if_pos hst]
    exact Or.inl rfl
  · rw [if_neg hst]
    cases htr : env.translate post.Message s t with
    | error e => exact Or.inr rfl
    | ok tt =>
        by_cases hne : tt = post.Message
        · simp [hne]
        · simp [hne]

/-- Annotation format of a successful, non-no-op dispatch. -/
lemma hookDispatch_format (env : Env) (post : Post) (s t : String)
    (calls : List CapCall) (tt : String) (hst : s ≠ t)
    (htr : env.translate post.Message s t = .ok tt)
    (hne : tt ≠ post.Message) :
    (hookDispatch env post s t calls).1.Message =
      post.Message ++ "\n\n(Translated: " ++ displayName s ++ " → "
        ++ displayName t ++ ")\n" ++ tt := by
  unfold hookDispatch
  rw [if_neg hst, htr]
  simp [hne]

/-! Helper lemmas about the interception hook, the on-demand handler and
validation. -/

/-- When the preference lookup fails, the hook passes the post through. -/
lemma hook_no_pref (env : Env) (kv : KVStore) (post : Post)
    (e : APIErrorResponse) (hg : getUserInfo kv post.UserId = .error e) :
    MessageWillBePosted env kv post = (post, "", []) := by
  unfold MessageWillBePosted
  rw [hg]

/-- When the stored preference is deactivated, the hook passes the post
through. -/
lemma hook_inactive (env : Env) (kv : KVStore) (post : Post) (u : UserInfo)
    (hg : getUserInfo kv post.UserId = .ok u) (hA : u.Activated = false) :
    MessageWillBePosted env kv post = (post, "", []) := by
  unfold MessageWillBePosted
  rw [hg]
  simp [hA]

/-- When the preference is activated with a non-auto source language, the
hook goes straight to the dispatch tail with no detection call. -/
lemma hook_nonauto (env : Env) (kv : KVStore) (post : Post) (u : UserInfo)
    (hg : getUserInfo kv post.UserId = .ok u) (hA : u.Activated = true)
    (hs : u.SourceLanguage ≠ autoLanguage) :
    MessageWillBePosted env kv post =
      hookDispatch env post u.SourceLanguage u.TargetLanguage [] := by
  unfold MessageWillBePosted
  rw [hg]
  simp [hA, hs]

/-- When the source language is auto and detection succeeds, the hook
dispatches on the detected language after exactly one detection call. -/
lemma hook_auto_ok (env : Env) (kv : KVStore) (post : Post) (u : UserInfo)
    (d : String) (hg : getUserInfo kv post.UserId = .ok u)
    (hA : u.Activated = true) (hsa : u.SourceLanguage = autoLanguage)
    (hd : env.detect post.Message = .ok d) :
    MessageWillBePosted env kv post =
      hookDispatch env post d u.TargetLanguage [.detectCall post.Message] := by
  unfold MessageWillBePosted
  rw [hg]
  simp [hA, hsa, hd]

/-- When the source language is auto and detection fails, the hook
returns the unmodified post with the detection-failure reason. -/
lemma hook_auto_err (env : Env) (kv : KVStore) (post : Post) (u : UserInfo)
    (e : Unit) (hg : getUserInfo kv post.UserId = .ok u)
    (hA : u.Activated = true) (hsa : u.SourceLanguage = autoLanguage)
    (hd : env.detect post.Message = .error e) :
    MessageWillBePosted env kv post =
      (post, "Failed to detect language", [.detectCall post.Message]) := by
  unfold MessageWillBePosted
  rw [hg]
  simp [hA, hsa, hd]

/-- The on-demand dispatch tail always performs exactly one translation
call on the resolved pair. -/
lemma getGoDispatch_calls (env : Env) (r : HTTPRequest) (post : Post)
    (source : String) (calls : List CapCall) :
    (getGoDispatch env r post source calls).2 =
      calls ++ [CapCall.translateCall post.Message source r.queryTarget] := by
  unfold getGoDispatch
  cases env.translate post.Message source r.queryTarget <;> simp

/-- A preference that passes validation has distinct source and target
and a non-auto target. -/
lemma isValid_none_constraints (u : UserInfo) (h : u.IsValid = none) :
    u.SourceLanguage ≠ u.TargetLanguage ∧ u.TargetLanguage ≠ autoLanguage := by
  unfold UserInfo.IsValid at h
  repeat' split at h
  all_goals simp_all

/-! Claim theorems. -/

/-- C1 counterexample: with an activated auto-source preference stored
for the poster and a failing detection capability, `MessageWillBePosted`
returns the non-empty rejection-reason string "Failed to detect
language", refuting the claim that the rejection reason is always
empty. -/
theorem c1_counterexample :
    (MessageWillBePosted envFail (kvSingle prefAutoEn) postHola).2.1 =
      "Failed to detect language" ∧
    ¬ (MessageWillBePosted envFail (kvSingle prefAutoEn) postHola).2.1 = "" := by
  decide

/-- C1 (amended): `MessageWillBePosted` returns the empty rejection
reason except when language detection or the remote translation call
fails, in which case it returns the non-empty reason "Failed to detect
language" or "Failed to translate message" respectively; whenever the
reason is non-empty the post itself is returned unmodified. -/
theorem c1_amended_hook_rejection (env : Env) (kv : KVStore) (post : Post) :
    ((MessageWillBePosted env kv post).2.1 = "" ∨
      (MessageWillBePosted env kv post).2.1 = "Failed to detect language" ∨
      (MessageWillBePosted env kv post).2.1 = "Failed to translate message") ∧
    ((MessageWillBePosted env kv post).2.1 ≠ "" →
      (MessageWillBePosted env kv post).1 = post) := by
  cases hg : getUserInfo kv post.UserId with
  | error e =>
      rw [hook_no_pref env kv post e hg]
      exact ⟨Or.inl rfl, fun h => absurd rfl h⟩
  | ok u =>
      cases hA : u.Activated with
      | false =>
          rw [hook_inactive env kv post u hg hA]
          exact ⟨Or.inl rfl, fun h => absurd rfl h⟩
      | true =>
          by_cases hsa : u.SourceLanguage = autoLanguage
          · cases hd : env.detect post.Message with
            | error e2 =>
                rw [hook_auto_err env kv post u e2 hg hA hsa hd]
                exact ⟨Or.inr (Or.inl rfl), fun _ => rfl⟩
            | ok d =>
                rw [hook_auto_ok env kv post u d hg hA hsa hd]
                obtain ⟨h1, h2⟩ :=
                  hookDispatch_reason_cases env post d u.TargetLanguage
                    [.detectCall post.Message]
                refine ⟨?_, h2⟩
                rcases h1 with h | h
                · exact Or.inl h
                · exact Or.inr (Or.inr h)
          · rw [hook_nonauto env kv post u hg hA hsa]
            obtain ⟨h1, h2⟩ :=
              hookDispatch_reason_cases env post u.SourceLanguage
                u.TargetLanguage []
            refine ⟨?_, h2⟩
            rcases h1 with h | h
            · exact Or.inl h
            · exact Or.inr (Or.inr h)

/-- C1 witness: the amended statement instantiated at a concrete hook
invocation. -/
theorem c1_amended_witness :
    ((MessageWillBePosted envFail kvEmpty postHello).2.1 = "" ∨
      (MessageWillBePosted envFail kvEmpty postHello).2.1 =
        "Failed to detect language" ∨
      (MessageWillBePosted envFail kvEmpty postHello).2.1 =
        "Failed to translate message") ∧
    ((MessageWillBePosted envFail kvEmpty postHello).2.1 ≠ "" →
      (MessageWillBePosted envFail kvEmpty postHello).1 = postHello) :=
  c1_amended_hook_rejection envFail kvEmpty postHello

/-- C2 counterexample: with an unconfigured plugin, a request to
/api/get_info receives the 501 error write but is then still routed: the
stored preference of the caller is written to the response after the
501, refuting the claim that no further processing happens. -/
theorem c2_counterexample :
    (ServeHTTP false false envFail stWithPref rGetInfo).1 =
      [HTTPAction.httpError "This plugin is not configured." 501,
       HTTPAction.setContentType,
       HTTPAction.writeUserInfo prefEnFr] := by
  decide

/-- C2 (amended): when the plugin is not configured with valid
remote-capability credentials/region, `ServeHTTP` writes the 501 Not
Implemented error but does not stop: the remainder of the request
handling (content-type header, routing to /api/go, /api/get_info,
/api/set_info or the 404 branch, with all its side effects) proceeds
exactly as in the configured case. -/
theorem c2_amended_unconfigured_routes (kvSetFails : Bool) (env : Env)
    (st : PluginState) (r : HTTPRequest) :
    ServeHTTP false kvSetFails env st r =
      (HTTPAction.httpError "This plugin is not configured." 501 ::
          (ServeHTTP true kvSetFails env st r).1,
        (ServeHTTP true kvSetFails env st r).2.1,
        (ServeHTTP true kvSetFails env st r).2.2) :=
  rfl

/-- C2 witness: the amended statement instantiated at a concrete
request. -/
theorem c2_amended_witness :
    ServeHTTP false false envFail stWithPref rGetInfo =
      (HTTPAction.httpError "This plugin is not configured." 501 ::
          (ServeHTTP true false envFail stWithPref rGetInfo).1,
        (ServeHTTP true false envFail stWithPref rGetInfo).2.1,
        (ServeHTTP true false envFail stWithPref rGetInfo).2.2) :=
  c2_amended_unconfigured_routes false envFail stWithPref rGetInfo

/-- C3 counterexample: an on-demand request with source = target = "en"
for an existing post still performs the remote translation call,
refuting the claim that the dispatch is a no-op when resolved source
equals target. -/
theorem c3_counterexample :
    (getGo envEcho rGoEnEn).2 = [CapCall.translateCall "Hola" "en" "en"] ∧
    rGoEnEn.querySource = rGoEnEn.queryTarget := by
  decide

/-- C3 (amended): `getGo` applies no skip condition: whenever the caller
is authenticated, the post exists and source resolution succeeds, the
remote translation call between resolved source and target is performed
— even when they are equal (skip condition A exists only in the
interception hook's dispatch tail). -/
theorem c3_amended_always_translates (env : Env) (r : HTTPRequest)
    (post : Post) (hu : r.mmUserID ≠ "")
    (hp : env.getPost r.queryPostID = .ok post) :
    (r.querySource ≠ "auto" →
      (getGo env r).2 =
        [CapCall.translateCall post.Message r.querySource r.queryTarget]) ∧
    (∀ d, r.querySource = "auto" → env.detect post.Message = .ok d →
      (getGo env r).2 =
        [CapCall.detectCall post.Message,
         CapCall.translateCall post.Message d r.queryTarget]) := by
  unfold getGo
  rw [if_neg hu]
  simp only [hp]
  constructor
  · intro hs
    rw [if_neg hs, getGoDispatch_calls]
    simp
  · intro d hs hd
    rw [if_pos hs]
    simp only [hd]
    rw [getGoDispatch_calls]
    simp

/-- C3 witness: the amended statement instantiated at a concrete
request with distinct source and target. -/
theorem c3_amended_witness :
    (getGo envEcho rGoEnFr).2 = [CapCall.translateCall "Hola" "en" "fr"] :=
  (c3_amended_always_translates envEcho rGoEnFr postHola (by decide) rfl).1
    (by decide)

/-- C4: on every translating (non-no-op) hook run — activated
preference, effective source `src` either the preference's non-auto
source language or the language detected for an auto source, `src`
distinct from the target, successful translation differing from the
original text — the hook output message is exactly the original text, a
blank-line separator, the header naming source and target by catalog
display name (`displayName` falls back to the raw code when the code is
absent from the catalog), then the translated text. -/
theorem c4_annotation_format (env : Env) (kv : KVStore) (post : Post)
    (u : UserInfo) (src tt : String)
    (hg : getUserInfo kv post.UserId = .ok u)
    (hA : u.Activated = true)
    (hres : (u.SourceLanguage ≠ autoLanguage ∧ src = u.SourceLanguage) ∨
      (u.SourceLanguage = autoLanguage ∧ env.detect post.Message = .ok src))
    (hst : src ≠ u.TargetLanguage)
    (htr : env.translate post.Message src u.TargetLanguage = .ok tt)
    (hne : tt ≠ post.Message) :
    (MessageWillBePosted env kv post).1.Message =
      post.Message ++ "\n\n(Translated: " ++ displayName src
        ++ " → " ++ displayName u.TargetLanguage ++ ")\n" ++ tt := by
  rcases hres with ⟨hs, hsrc⟩ | ⟨hsa, hd⟩
  · subst hsrc
    rw [hook_nonauto env kv post u hg hA hs]
    exact hookDispatch_format env post u.SourceLanguage u.TargetLanguage []
      tt hst htr hne
  · rw [hook_auto_ok env kv post u src hg hA hsa hd]
    exact hookDispatch_format env post src u.TargetLanguage
      [.detectCall post.Message] tt hst htr hne

/-- C4 witness: the spec scenario — preference en → fr, message "Hello",
capability returning "Bonjour" — yields exactly
"Hello\n\n(Translated: English → French)\nBonjour". -/
theorem c4_scenario_witness :
    (MessageWillBePosted envHello (kvSingle prefEnFr) postHello).1.Message =
      "Hello\n\n(Translated: English → French)\nBonjour" :=
  (c4_annotation_format envHello (kvSingle prefEnFr) postHello prefEnFr
      "en" "Bonjour" (by decide) rfl (Or.inl (by decide)) (by decide)
      (by decide) (by decide)).trans (by decide)

/-- C5: for every preference whose source equals its target, or whose
target is the sentinel auto, `setUserInfo` fails with the
`invalid_user_info` validation error and leaves the plugin state
— KV store and emitted events — unchanged. -/
theorem c5_invalid_pref_rejected (kvSetFails : Bool) (st : PluginState)
    (u : UserInfo)
    (h : u.SourceLanguage = u.TargetLanguage ∨ u.TargetLanguage = autoLanguage) :
    ∃ e, setUserInfo kvSetFails st u = (some e, st) ∧
      e.ID = "invalid_user_info" := by
  unfold setUserInfo
  cases hv : u.IsValid with
  | some msg => exact ⟨_, rfl, rfl⟩
  | none =>
      obtain ⟨h1, h2⟩ := isValid_none_constraints u hv
      rcases h with h | h
      · exact absurd h h1
      · exact absurd h h2

/-- C5 witness: the en → en preference is rejected with
`invalid_user_info` and the state is unchanged. -/
theorem c5_witness :
    Option.map APIErrorResponse.ID (setUserInfo false stEmpty uEnEn).1 =
      some "invalid_user_info" ∧
    (setUserInfo false stEmpty uEnEn).2 = stEmpty := by
  obtain ⟨e, he, hid⟩ := c5_invalid_pref_rejected false stEmpty uEnEn (Or.inl rfl)
  rw [he]
  simp [hid]

/-- C6: writing a valid preference with `setUserInfo` (with the KV write
succeeding) and then reading the same userID with `getUserInfo` returns
the same preference: the round trip through the JSON-encoded store is
the identity. -/
theorem c6_set_get_roundtrip (st : PluginState) (u : UserInfo)
    (h : u.IsValid = none) :
    getUserInfo (setUserInfo false st u).2.kv u.UserID = .ok u := by
  simp [setUserInfo, h, getUserInfo]

/-- C6 witness: the round trip at the en → fr preference on the empty
store. -/
theorem c6_witness :
    prefEnFr.IsValid = none ∧
    getUserInfo (setUserInfo false stEmpty prefEnFr).2.kv prefEnFr.UserID =
      .ok prefEnFr :=
  ⟨by decide, c6_set_get_roundtrip stEmpty prefEnFr (by decide)⟩

/-- C7: when the poster has no stored preference (lookup fails) or the
stored preference is deactivated, the hook returns the input post
unmodified with the empty rejection reason. -/
theorem c7_inactive_passthrough (env : Env) (kv : KVStore) (post : Post)
    (h : ∀ u, getUserInfo kv post.UserId = .ok u → u.Activated = false) :
    (MessageWillBePosted env kv post).1 = post ∧
    (MessageWillBePosted env kv post).2.1 = "" := by
  cases hg : getUserInfo kv post.UserId with
  | error e =>
      rw [hook_no_pref env kv post e hg]
      exact ⟨rfl, rfl⟩
  | ok u =>
      rw [hook_inactive env kv post u hg (h u hg)]
      exact ⟨rfl, rfl⟩

/-- C7 witness: the hook passes a post through when the store has no
record for the poster. -/
theorem c7_witness :
    (MessageWillBePosted envHello kvEmpty postHello).1 = postHello ∧
    (MessageWillBePosted envHello kvEmpty postHello).2.1 = "" :=
  c7_inactive_passthrough envHello kvEmpty postHello
    (fun u hu => by simp [getUserInfo, kvEmpty] at hu)

/-- A preference whose source language is the sentinel auto, whose
userID is 26 bytes, and whose target language is a catalogued non-auto
code, passes validation. -/
lemma isValid_auto_source (u : UserInfo) (hs : u.SourceLanguage = autoLanguage)
    (hlen : u.UserID.utf8ByteSize = 26) (htgt : langValue u.TargetLanguage ≠ "")
    (htga : u.TargetLanguage ≠ autoLanguage) : u.IsValid = none := by
  have hne : u.UserID ≠ "" := by
    intro h0
    rw [h0] at hlen
    exact absurd hlen (by decide)
  have htne : u.TargetLanguage ≠ "" := by
    intro h0
    rw [h0] at htgt
    exact htgt (by decide)
  unfold UserInfo.IsValid
  rw [hs]
  rw [if_neg (not_or.mpr ⟨hne, fun hh => hh hlen⟩)]
  rw [if_neg (by decide : ¬(autoLanguage = ""))]
  rw [if_neg htne]
  rw [if_neg (by decide : ¬(langValue autoLanguage = ""))]
  rw [if_neg htgt]
  rw [if_neg (fun hh => htga hh.symm : ¬(autoLanguage = u.TargetLanguage))]
  rw [if_neg htga]

/-- C8: when the given source language is not the sentinel auto, the
language-detection capability is never invoked and every translation
call uses the given source code unchanged — both in the interception
hook (preference source) and in the on-demand handler (query source). -/
theorem c8_no_detection_when_source_given :
    (∀ env kv post u, getUserInfo kv post.UserId = .ok u →
        u.SourceLanguage ≠ autoLanguage →
        (∀ txt, CapCall.detectCall txt ∉ (MessageWillBePosted env kv post).2.2) ∧
        (∀ txt s t2,
          CapCall.translateCall txt s t2 ∈ (MessageWillBePosted env kv post).2.2 →
          s = u.SourceLanguage)) ∧
    (∀ env r, r.querySource ≠ "auto" →
        (∀ txt, CapCall.detectCall txt ∉ (getGo env r).2) ∧
        (∀ txt s t2, CapCall.translateCall txt s t2 ∈ (getGo env r).2 →
          s = r.querySource)) := by
  constructor
  · intro env kv post u hg hs
    cases hA : u.Activated with
    | false =>
        rw [hook_inactive env kv post u hg hA]
        exact ⟨fun txt => by simp, fun txt s t2 h => by simp at h⟩
    | true =>
        rw [hook_nonauto env kv post u hg hA hs]
        rcases hookDispatch_calls_cases env post u.SourceLanguage
            u.TargetLanguage [] with hc | hc <;> rw [hc]
        · exact ⟨fun txt => by simp, fun txt s t2 h => by simp at h⟩
        · refine ⟨fun txt => by simp, fun txt s t2 h => ?_⟩
          simp at h
          exact h.2.1
  · intro env r hs
    by_cases hu : r.mmUserID = ""
    · unfold getGo
      rw [if_pos hu]
      exact ⟨fun txt => by simp, fun txt s t2 h => by simp at h⟩
    · unfold getGo
      rw [if_neg hu]
      cases hp : env.getPost r.queryPostID with
      | error e =>
          simp only [hp]
          exact ⟨fun txt => by simp, fun txt s t2 h => by simp at h⟩
      | ok post =>
          simp only [hp]
          rw [if_neg hs, getGoDispatch_calls]
          refine ⟨fun txt => by simp, fun txt s t2 h => ?_⟩
          simp at h
          exact h.2.1

/-- C8 witness: no detection call in a concrete hook run with source
"en", nor in a concrete on-demand run with source "en". -/
theorem c8_witness :
    CapCall.detectCall "Hello" ∉
      (MessageWillBePosted envHello (kvSingle prefEnFr) postHello).2.2 ∧
    CapCall.detectCall "Hola" ∉ (getGo envEcho rGoEnFr).2 :=
  ⟨(c8_no_detection_when_source_given.1 envHello (kvSingle prefEnFr)
      postHello prefEnFr (by decide) (by decide)).1 "Hello",
   (c8_no_detection_when_source_given.2 envEcho rGoEnFr (by decide)).1 "Hola"⟩

/-- C9: validation accepts a preference whose source language is the
sentinel auto (the catalog contains the sentinel, so the membership
check passes for it); in particular the default preference
{enabled:true, source:auto, target:en} produced by `NewUserInfo` for any
26-byte userID passes validation. -/
theorem c9_auto_source_accepted :
    (∀ u : UserInfo, u.SourceLanguage = autoLanguage →
        u.UserID.utf8ByteSize = 26 →
        langValue u.TargetLanguage ≠ "" →
        u.TargetLanguage ≠ autoLanguage →
        u.IsValid = none) ∧
    (∀ userID : String, userID.utf8ByteSize = 26 →
        (NewUserInfo userID).IsValid = none) :=
  ⟨fun u hs hlen htgt htga => isValid_auto_source u hs hlen htgt htga,
   fun userID hlen =>
     isValid_auto_source (NewUserInfo userID) rfl hlen
       (show langValue enLanguage ≠ "" by decide)
       (show enLanguage ≠ autoLanguage by decide)⟩

/-- C9 witness: the auto → fr preference and the default preference of
`uid26` both pass validation. -/
theorem c9_witness :
    prefAutoFr.IsValid = none ∧ (NewUserInfo uid26).IsValid = none :=
  ⟨c9_auto_source_accepted.1 prefAutoFr rfl (by decide) (by decide) (by decide),
   c9_auto_source_accepted.2 uid26 (by decide)⟩

/-- C10: `getUserInfo` returns the `no_record_found` error both when the
KV read fails and when no bytes are stored; the `unable_to_unmarshal`
error is returned exactly when stored bytes are present but fail to
deserialize. -/
theorem c10_getUserInfo_error_taxonomy (kv : KVStore) (userID : String) :
    ((kv userID = .kvError ∨ kv userID = .kvNil) →
        getUserInfo kv userID =
          .error { ID := "no_record_found", Message := "No record found.",
                   StatusCode := 400 }) ∧
    (kv userID = .kvBytes .badBytes →
        getUserInfo kv userID =
          .error { ID := "unable_to_unmarshal",
                   Message := "Unable to unmarshal json.", StatusCode := 400 }) ∧
    (∀ e, getUserInfo kv userID = .error e → e.ID = "unable_to_unmarshal" →
        kv userID = .kvBytes .badBytes) := by
  unfold getUserInfo
  cases hk : kv userID with
  | kvError =>
      refine ⟨fun _ => rfl, fun h2 => by simp at h2, fun e he hid => ?_⟩
      injection he with h3
      rw [← h3] at hid
      exact absurd hid (by decide)
  | kvNil =>
      refine ⟨fun _ => rfl, fun h2 => by simp at h2, fun e he hid => ?_⟩
      injection he with h3
      rw [← h3] at hid
      exact absurd hid (by decide)
  | kvBytes v =>
      cases v with
      | goodBytes u2 =>
          refine ⟨fun h1 => by simp at h1, fun h2 => by simp at h2,
            fun e he hid => ?_⟩
          simp at he
      | badBytes =>
          exact ⟨fun h1 => by simp at h1, fun _ => rfl, fun e he hid => rfl⟩

/-- C10 witness: the empty store yields the `no_record_found` error. -/
theorem c10_witness :
    getUserInfo kvEmpty uid26 =
      .error { ID := "no_record_found", Message := "No record found.",
               StatusCode := 400 } :=
  (c10_getUserInfo_error_taxonomy kvEmpty uid26).1 (Or.inr rfl)

end MMTranslate
